import Mathlib

/-!
Shallow embedding of `scripts/pandoc-html.py`, a wrapper script that
converts a markdown document to HTML by invoking an external converter
(`/usr/bin/pandoc`) as a subprocess.

The script's straight-line control flow is embedded as the function
`PandocHtml.runScript`, parameterised over:
  * `argv` — the process argument vector (`argv[0]` is the script name);
  * `env`  — the process environment, a partial map from variable names
    to values (`os.environ[k]` raises `KeyError` when absent);
  * `conv` — the semantics of spawning the external converter: given the
    command token list and the current file system it yields the child's
    process result (exit status, captured stdout/stderr) and the file
    system after the child ran;
  * `fs`   — the file system, a partial map from paths to file contents.

Python exceptions (`IndexError` from `sys.argv[1]`, `KeyError` from
`os.environ[...]`) are embedded as early termination with a `PyError`;
the file system at the moment of termination is part of the result, so
"no output file is created or modified" is expressible.
-/

namespace PandocHtml

/-- `posixpath.basename p`: CPython computes `p[p.rfind(sep) + 1:]` with
`sep = '/'`, i.e. the longest suffix of `p` containing no `'/'`. -/
def basename (p : String) : String :=
  String.mk ((p.data.reverse.takeWhile (fun c => c != '/')).reverse)

/-- `s.startswith('/')`: true iff the first character of `s` is `'/'`. -/
def startsWithSep (s : String) : Bool :=
  match s.data with
  | [] => false
  | c :: _ => c == '/'

/-- `s.endswith('/')`: true iff the last character of `s` is `'/'`. -/
def endsWithSep (s : String) : Bool :=
  match s.data.reverse with
  | [] => false
  | c :: _ => c == '/'

/-- `posixpath.join a b` (two-argument case): CPython sets `path = a` and
then, for `b`: if `b` starts with `'/'` the result is `b`; else if `path`
is empty or ends with `'/'` the result is `path ++ b`; else
`path ++ '/' ++ b`. -/
def posixJoin (a b : String) : String :=
  if startsWithSep b then b
  else if a == "" || endsWithSep a then a ++ b
  else a ++ "/" ++ b

/-- Result of one completed child process: exit status and the two
captured streams (`proc.wait()` / `proc.communicate()`). -/
structure ProcResult where
  ret : Nat
  output : String
  errors : String
deriving Repr, DecidableEq

/-- The file system: a partial map from paths to file contents. -/
def FS : Type := String → Option String

/-- Semantics of spawning the external converter: the command token list
and the file system before the child runs determine the child's result
and the file system after it exits. -/
def Converter : Type := List String → FS → ProcResult × FS

/-- Unhandled Python exceptions the script can die with:
`IndexError` from `sys.argv[1]` and `KeyError` from `os.environ[name]`. -/
inductive PyError where
  | indexError
  | keyError (name : String)
deriving Repr, DecidableEq

/-- The input path: `infile = os.path.join(meson_source_root, fname + '.md')`. -/
def infile (meson_source_root fname : String) : String :=
  posixJoin meson_source_root (fname ++ ".md")

/-- The output path: `outfile = os.path.join(meson_build_root, fname + '.html')`. -/
def outfile (meson_build_root fname : String) : String :=
  posixJoin meson_build_root (fname ++ ".html")

/-- The command token list:
`cmd = ['/usr/bin/pandoc', '-f', 'markdown', '-s', infile, '-o', outfile]`. -/
def cmd (infile outfile : String) : List String :=
  ["/usr/bin/pandoc", "-f", "markdown", "-s", infile, "-o", outfile]

/-- First diagnostic line: `print(f'FAILED ret={ret}')`. -/
def failLine (ret : Nat) : String :=
  "FAILED ret=" ++ toString ret

/-- Second diagnostic line: `print(f'output={output} errors={errors}')`
(stream contents, with the surrounding repr decoration elided). -/
def streamsLine (output errors : String) : String :=
  "output=" ++ output ++ " errors=" ++ errors

/-- Lines printed by the wrapper after the child exits:
`if ret:` (non-zero is truthy) print the two diagnostic lines,
otherwise print nothing. -/
def printedOf (res : ProcResult) : List String :=
  if res.ret != 0 then [failLine res.ret, streamsLine res.output res.errors]
  else []

/-- Everything observable from one run that reaches normal completion:
the command handed to the converter, the child's result, the lines the
wrapper printed to its stdout, and the final file system. -/
structure Outcome where
  cmdRun : List String
  res : ProcResult
  printed : List String
  fs : FS

/-- Result of one run of the script: either death by an unhandled
exception (with the file system at that moment) or normal completion. -/
inductive RunResult where
  | err (e : PyError) (fs : FS)
  | ok (o : Outcome)

/-- The whole script, line by line:
`fname = os.path.basename(sys.argv[1])`;
`meson_source_root = os.environ['MESON_SOURCE_ROOT']`;
`meson_build_root = os.environ['MESON_BUILD_ROOT']`;
the path joins; the command list; `subprocess.Popen` + `wait` +
`communicate`; and the final `if ret:` report. -/
def runScript (argv : List String) (env : String → Option String)
    (conv : Converter) (fs : FS) : RunResult :=
  match argv[1]? with
  | none => .err .indexError fs
  | some arg1 =>
    let fname := basename arg1
    match env "MESON_SOURCE_ROOT" with
    | none => .err (.keyError "MESON_SOURCE_ROOT") fs
    | some meson_source_root =>
      match env "MESON_BUILD_ROOT" with
      | none => .err (.keyError "MESON_BUILD_ROOT") fs
      | some meson_build_root =>
        let inP := infile meson_source_root fname
        let outP := outfile meson_build_root fname
        let c := cmd inP outP
        let r := conv c fs
        .ok ⟨c, r.1, printedOf r.1, r.2⟩

/-- Exit status of the wrapper process itself, as CPython assigns it:
0 on normal completion of the script, 1 when the script dies with an
unhandled exception (traceback to stderr). -/
def processExit : RunResult → Nat
  | .err _ _ => 1
  | .ok _ => 0

/-- A deterministic converter: its result depends only on the content of
the input file (token 4 of the command) and it modifies only the output
path (token 6), writing content that is a function of the input content. -/
def mkConv (g : Option String → ProcResult) (w : Option String → Option String) :
    Converter :=
  fun c fs =>
    let inC := fs (c.getD 4 "")
    (g inC, fun p => if p = c.getD 6 "" then w inC else fs p)

/-- The outcome of a run that reaches the subprocess: the command is built
from the basename of `argv[1]` and the two roots, the converter is applied
to it, and the report step inspects the child's exit status. -/
def okOutcome (conv : Converter) (fs : FS) (S D a : String) : Outcome :=
  let c := cmd (infile S (basename a)) (outfile D (basename a))
  ⟨c, (conv c fs).1, printedOf (conv c fs).1, (conv c fs).2⟩

/-- A concrete environment with both roots set, for witnesses. -/
def env0 : String → Option String := fun k =>
  if k = "MESON_SOURCE_ROOT" then some "/src"
  else if k = "MESON_BUILD_ROOT" then some "/bld" else none

/-- A concrete environment missing `MESON_BUILD_ROOT`, for witnesses. -/
def envNoBuild : String → Option String := fun k =>
  if k = "MESON_SOURCE_ROOT" then some "/src" else none

/-- A concrete converter that succeeds and leaves the file system alone. -/
def conv0 : Converter := fun _ fs => (⟨0, "", ""⟩, fs)

/-- A concrete converter stub that exits with status 2 and writes `boom`
to its error stream. -/
def convFail : Converter := fun _ fs => (⟨2, "", "boom"⟩, fs)

/-- A concrete empty file system, for witnesses. -/
def fs0 : FS := fun _ => none

/-- A concrete child-result function for a deterministic converter. -/
def g0 : Option String → ProcResult := fun _ => ⟨0, "", ""⟩

/-- A concrete output-content function for a deterministic converter. -/
def w0 : Option String → Option String := fun _ => some "<html>"

theorem takeWhile_all {p : Char → Bool} : ∀ {l : List Char},
    (∀ a ∈ l, p a = true) → List.takeWhile p l = l := by
  intro l
  induction l with
  | nil => intro _; rfl
  | cons x xs ih =>
    intro h
    rw [List.takeWhile_cons, if_pos (h x (List.mem_cons_self x xs))]
    rw [ih fun a ha => h a (List.mem_cons_of_mem x ha)]

theorem takeWhile_append_stop {p : Char → Bool} {l2 : List Char} {c : Char}
    (hc : p c = false) : ∀ {l1 : List Char}, (∀ a ∈ l1, p a = true) →
    List.takeWhile p (l1 ++ c :: l2) = l1 := by
  intro l1
  induction l1 with
  | nil => intro _; rw [List.nil_append, List.takeWhile_cons, if_neg (by simp [hc])]
  | cons x xs ih =>
    intro h
    rw [List.cons_append, List.takeWhile_cons, if_pos (h x (List.mem_cons_self x xs))]
    rw [ih fun a ha => h a (List.mem_cons_of_mem x ha)]

theorem basename_eq_self {s : String} (h : '/' ∉ s.data) : basename s = s := by
  unfold basename
  rw [takeWhile_all, List.reverse_reverse]
  intro a ha
  rw [List.mem_reverse] at ha
  exact bne_iff_ne.mpr fun e => h (e ▸ ha)

theorem basename_last_component {d b : String} (h : '/' ∉ b.data) :
    basename (d ++ "/" ++ b) = b := by
  unfold basename
  have hd : (d ++ "/" ++ b).data.reverse = b.data.reverse ++ '/' :: d.data.reverse := by
    simp [String.data_append]
  rw [hd, takeWhile_append_stop (by decide), List.reverse_reverse]
  intro a ha
  rw [List.mem_reverse] at ha
  exact bne_iff_ne.mpr fun e => h (e ▸ ha)

theorem posixJoin_sep {a b : String} (ha : a ≠ "") (he : endsWithSep a = false)
    (hb : startsWithSep b = false) :
    posixJoin a b = a ++ "/" ++ b := by
  simp [posixJoin, ha, he, hb]

theorem runScript_ok {argv : List String} {env : String → Option String}
    (conv : Converter) (fs : FS) {a S D : String}
    (ha : argv[1]? = some a)
    (hs : env "MESON_SOURCE_ROOT" = some S)
    (hd : env "MESON_BUILD_ROOT" = some D) :
    runScript argv env conv fs = .ok (okOutcome conv fs S D a) := by
  unfold runScript
  rw [ha, hs, hd]
  rfl

theorem runScript_ok_inv {argv : List String} {env : String → Option String}
    {conv : Converter} {fs : FS} {o : Outcome}
    (h : runScript argv env conv fs = .ok o) :
    ∃ a S D, argv[1]? = some a ∧ env "MESON_SOURCE_ROOT" = some S ∧
      env "MESON_BUILD_ROOT" = some D ∧ o = okOutcome conv fs S D a := by
  unfold runScript at h
  split at h
  · exact RunResult.noConfusion h
  · rename_i a ha
    split at h
    · exact RunResult.noConfusion h
    · rename_i S hS
      split at h
      · exact RunResult.noConfusion h
      · rename_i D hD
        injection h with h
        exact ⟨a, S, D, ha, hS, hD, h.symm⟩

theorem printedOf_spec (r : ProcResult) :
    (printedOf r ≠ [] ↔ r.ret ≠ 0) ∧
    (r.ret ≠ 0 → printedOf r = [failLine r.ret, streamsLine r.output r.errors]) ∧
    (r.ret = 0 → printedOf r = []) := by
  unfold printedOf
  by_cases h : r.ret = 0 <;> simp [h]

/-- Claim C1: for every base name `B` (free of path separators), source root
`S` and build root `D`, the program constructs the input path as the POSIX
path-join of `S` with `B ++ ".md"` and the output path as the POSIX
path-join of `D` with `B ++ ".html"`; they appear as tokens 4 and 6 of the
spawned command. -/
theorem c1_path_construction (argv : List String) (env : String → Option String)
    (conv : Converter) (fs : FS) (B S D : String)
    (ha : argv[1]? = some B) (hB : '/' ∉ B.data)
    (hs : env "MESON_SOURCE_ROOT" = some S)
    (hd : env "MESON_BUILD_ROOT" = some D) :
    ∃ o : Outcome, runScript argv env conv fs = .ok o ∧
      o.cmdRun[4]? = some (posixJoin S (B ++ ".md")) ∧
      o.cmdRun[6]? = some (posixJoin D (B ++ ".html")) := by
  refine ⟨_, runScript_ok conv fs ha hs hd, ?_, ?_⟩ <;>
    simp [okOutcome, cmd, infile, outfile, basename_eq_self hB]

/-- Witness for C1 at base name `README`, roots `/src` and `/bld`. -/
theorem c1_path_construction_witness :
    ∃ o : Outcome, runScript ["pandoc-html.py", "README"] env0 conv0 fs0 = .ok o ∧
      o.cmdRun[4]? = some (posixJoin "/src" ("README" ++ ".md")) ∧
      o.cmdRun[6]? = some (posixJoin "/bld" ("README" ++ ".html")) :=
  c1_path_construction _ env0 conv0 fs0 "README" "/src" "/bld" rfl (by decide) rfl rfl

/-- Claim C2: the wrapper prints diagnostics iff the child exit status is
non-zero: on failure it prints the status line followed by the streams
line; on exit status zero it prints nothing. -/
theorem c2_diagnostics_iff_failure (argv : List String) (env : String → Option String)
    (conv : Converter) (fs : FS) (o : Outcome)
    (h : runScript argv env conv fs = .ok o) :
    (o.printed ≠ [] ↔ o.res.ret ≠ 0) ∧
    (o.res.ret ≠ 0 →
      o.printed = [failLine o.res.ret, streamsLine o.res.output o.res.errors]) ∧
    (o.res.ret = 0 → o.printed = []) := by
  obtain ⟨a, S, D, -, -, -, rfl⟩ := runScript_ok_inv h
  exact printedOf_spec _

/-- Witness for C2 with a converter stub exiting with status 2 and `boom`
on its error stream. -/
theorem c2_diagnostics_iff_failure_witness :
    ((okOutcome convFail fs0 "/src" "/bld" "README").printed ≠ [] ↔
      (okOutcome convFail fs0 "/src" "/bld" "README").res.ret ≠ 0) ∧
    ((okOutcome convFail fs0 "/src" "/bld" "README").res.ret ≠ 0 →
      (okOutcome convFail fs0 "/src" "/bld" "README").printed =
        [failLine (okOutcome convFail fs0 "/src" "/bld" "README").res.ret,
         streamsLine (okOutcome convFail fs0 "/src" "/bld" "README").res.output
           (okOutcome convFail fs0 "/src" "/bld" "README").res.errors]) ∧
    ((okOutcome convFail fs0 "/src" "/bld" "README").res.ret = 0 →
      (okOutcome convFail fs0 "/src" "/bld" "README").printed = []) :=
  c2_diagnostics_iff_failure ["pandoc-html.py", "README"] env0 convFail fs0 _ rfl

/-- Claim C3: if either required environment variable is unset, the run
terminates with an unhandled `KeyError` whose identity is independent of
the converter (so no subprocess is spawned), and the file system is
returned unchanged (no output file is created or modified). -/
theorem c3_missing_env (argv : List String) (env : String → Option String)
    (a : String) (ha : argv[1]? = some a)
    (h : env "MESON_SOURCE_ROOT" = none ∨ env "MESON_BUILD_ROOT" = none) :
    ∃ name, ∀ (conv : Converter) (fs : FS),
      runScript argv env conv fs = .err (.keyError name) fs := by
  cases hS : env "MESON_SOURCE_ROOT" with
  | none =>
    refine ⟨"MESON_SOURCE_ROOT", fun conv fs => ?_⟩
    unfold runScript
    rw [ha, hS]
  | some S =>
    have hB : env "MESON_BUILD_ROOT" = none := by
      cases h with
      | inl h1 => rw [h1] at hS; exact Option.noConfusion hS
      | inr h2 => exact h2
    refine ⟨"MESON_BUILD_ROOT", fun conv fs => ?_⟩
    unfold runScript
    rw [ha, hS, hB]

/-- Witness for C3 with `MESON_BUILD_ROOT` unset. -/
theorem c3_missing_env_witness :
    ∃ name, ∀ (conv : Converter) (fs : FS),
      runScript ["pandoc-html.py", "README"] envNoBuild conv fs =
        .err (.keyError name) fs :=
  c3_missing_env _ _ "README" rfl (Or.inr rfl)

/-- Claim C4: on a non-zero child exit status the wrapper still completes
normally: its own process exit status is the runtime's normal-completion
status `0`, and in particular not the child's failure status. -/
theorem c4_no_failure_propagation (argv : List String) (env : String → Option String)
    (conv : Converter) (fs : FS) (o : Outcome)
    (h : runScript argv env conv fs = .ok o) (hret : o.res.ret ≠ 0) :
    processExit (runScript argv env conv fs) = 0 ∧
    processExit (runScript argv env conv fs) ≠ o.res.ret := by
  rw [h]
  exact ⟨rfl, fun e => hret e.symm⟩

/-- Witness for C4 with a converter stub exiting with status 2. -/
theorem c4_no_failure_propagation_witness :
    processExit (runScript ["pandoc-html.py", "README"] env0 convFail fs0) = 0 ∧
    processExit (runScript ["pandoc-html.py", "README"] env0 convFail fs0) ≠
      (okOutcome convFail fs0 "/src" "/bld" "README").res.ret :=
  c4_no_failure_propagation _ env0 convFail fs0 _ rfl (by decide)

/-- Claim C5: the command passed to the subprocess is exactly the fixed
absolute executable path `/usr/bin/pandoc` followed by
`-f markdown -s <input> -o <output>`, for every input. -/
theorem c5_fixed_command (argv : List String) (env : String → Option String)
    (conv : Converter) (fs : FS) (o : Outcome) (a S D : String)
    (ha : argv[1]? = some a)
    (hs : env "MESON_SOURCE_ROOT" = some S)
    (hd : env "MESON_BUILD_ROOT" = some D)
    (h : runScript argv env conv fs = .ok o) :
    o.cmdRun = ["/usr/bin/pandoc", "-f", "markdown", "-s",
      infile S (basename a), "-o", outfile D (basename a)] := by
  have h2 := (runScript_ok conv fs ha hs hd).symm.trans h
  injection h2 with h2
  rw [← h2]
  rfl

/-- Witness for C5 at base name `README`. -/
theorem c5_fixed_command_witness :
    (okOutcome conv0 fs0 "/src" "/bld" "README").cmdRun =
      ["/usr/bin/pandoc", "-f", "markdown", "-s",
        infile "/src" (basename "README"), "-o", outfile "/bld" (basename "README")] :=
  c5_fixed_command ["pandoc-html.py", "README"] env0 conv0 fs0 _ "README" "/src" "/bld"
    rfl rfl rfl rfl

/-- Claim C6: an argument with a directory component is reduced to its
final path component before path construction: for `argv[1] = d ++ "/" ++ b`
with `b` free of separators, the paths are built from `b` alone, with only
the fixed suffixes appended. -/
theorem c6_strip_directory (argv : List String) (env : String → Option String)
    (conv : Converter) (fs : FS) (d b S D : String)
    (ha : argv[1]? = some (d ++ "/" ++ b)) (hb : '/' ∉ b.data)
    (hs : env "MESON_SOURCE_ROOT" = some S)
    (hd : env "MESON_BUILD_ROOT" = some D) :
    ∃ o : Outcome, runScript argv env conv fs = .ok o ∧
      o.cmdRun[4]? = some (posixJoin S (b ++ ".md")) ∧
      o.cmdRun[6]? = some (posixJoin D (b ++ ".html")) := by
  refine ⟨_, runScript_ok conv fs ha hs hd, ?_, ?_⟩ <;>
    simp [okOutcome, cmd, infile, outfile, basename_last_component hb]

/-- Witness for C6 at argument `dir/README`. -/
theorem c6_strip_directory_witness :
    ∃ o : Outcome, runScript ["pandoc-html.py", "dir/README"] env0 conv0 fs0 = .ok o ∧
      o.cmdRun[4]? = some (posixJoin "/src" ("README" ++ ".md")) ∧
      o.cmdRun[6]? = some (posixJoin "/bld" ("README" ++ ".html")) :=
  c6_strip_directory _ env0 conv0 fs0 "dir" "README" "/src" "/bld" rfl
    (by decide) rfl rfl

/-- Claim C7: an empty base name is not validated: the degenerate paths
`<source-root>/.md` and `<build-root>/.html` are constructed and the
converter is still spawned with them; the run's outcome is exactly the
converter's result on that degenerate command. -/
theorem c7_empty_basename (argv : List String) (env : String → Option String)
    (conv : Converter) (fs : FS) (S D : String)
    (ha : argv[1]? = some "")
    (hs : env "MESON_SOURCE_ROOT" = some S)
    (hd : env "MESON_BUILD_ROOT" = some D)
    (hS : S ≠ "") (hSe : endsWithSep S = false)
    (hD : D ≠ "") (hDe : endsWithSep D = false) :
    runScript argv env conv fs =
      .ok ⟨cmd (S ++ "/.md") (D ++ "/.html"),
           (conv (cmd (S ++ "/.md") (D ++ "/.html")) fs).1,
           printedOf (conv (cmd (S ++ "/.md") (D ++ "/.html")) fs).1,
           (conv (cmd (S ++ "/.md") (D ++ "/.html")) fs).2⟩ := by
  have h1 : infile S (basename "") = S ++ "/.md" := by
    unfold infile
    rw [show basename "" ++ ".md" = ".md" from rfl]
    rw [posixJoin_sep hS hSe (by decide), String.append_assoc]
    rfl
  have h2 : outfile D (basename "") = D ++ "/.html" := by
    unfold outfile
    rw [show basename "" ++ ".html" = ".html" from rfl]
    rw [posixJoin_sep hD hDe (by decide), String.append_assoc]
    rfl
  rw [runScript_ok conv fs ha hs hd]
  unfold okOutcome
  rw [h1, h2]

/-- Witness for C7 at roots `/src` and `/bld` with an empty argument. -/
theorem c7_empty_basename_witness :
    runScript ["pandoc-html.py", ""] env0 conv0 fs0 =
      .ok ⟨cmd ("/src" ++ "/.md") ("/bld" ++ "/.html"),
           (conv0 (cmd ("/src" ++ "/.md") ("/bld" ++ "/.html")) fs0).1,
           printedOf (conv0 (cmd ("/src" ++ "/.md") ("/bld" ++ "/.html")) fs0).1,
           (conv0 (cmd ("/src" ++ "/.md") ("/bld" ++ "/.html")) fs0).2⟩ :=
  c7_empty_basename _ env0 conv0 fs0 "/src" "/bld" rfl rfl rfl
    (by decide) (by decide) (by decide) (by decide)

theorem cmd_getD4 (i o : String) : (cmd i o)[4]?.getD "" = i := rfl

theorem cmd_getD6 (i o : String) : (cmd i o)[6]?.getD "" = o := rfl

/-- Claim C8: running the script twice in succession with the same
argument, environment and a deterministic converter is idempotent: when
the input path and output path differ (so the input file content is
identical on both runs), the second run leaves the file system exactly as
the first run left it, and prints the same output with the same child
result. -/
theorem c8_idempotent (argv : List String) (env : String → Option String)
    (g : Option String → ProcResult) (w : Option String → Option String)
    (fsA : FS) (a S D : String)
    (ha : argv[1]? = some a)
    (hs : env "MESON_SOURCE_ROOT" = some S)
    (hd : env "MESON_BUILD_ROOT" = some D)
    (hio : infile S (basename a) ≠ outfile D (basename a)) :
    ∃ o1 o2 : Outcome,
      runScript argv env (mkConv g w) fsA = .ok o1 ∧
      runScript argv env (mkConv g w) o1.fs = .ok o2 ∧
      o2.fs = o1.fs ∧ o2.printed = o1.printed ∧ o2.res = o1.res := by
  refine ⟨okOutcome (mkConv g w) fsA S D a,
          okOutcome (mkConv g w) (okOutcome (mkConv g w) fsA S D a).fs S D a,
          runScript_ok _ _ ha hs hd, runScript_ok _ _ ha hs hd, ?_, ?_, ?_⟩
  · funext p
    by_cases hp : p = outfile D (basename a) <;>
      simp [okOutcome, mkConv, cmd_getD4, cmd_getD6, hio, hp]
  · simp [okOutcome, mkConv, cmd_getD4, cmd_getD6, hio]
  · simp [okOutcome, mkConv, cmd_getD4, cmd_getD6, hio]

/-- Witness for C8 at base name `README`, roots `/src` and `/bld`, with a
deterministic converter built from `g0` and `w0`. -/
theorem c8_idempotent_witness :
    ∃ o1 o2 : Outcome,
      runScript ["pandoc-html.py", "README"] env0 (mkConv g0 w0) fs0 = .ok o1 ∧
      runScript ["pandoc-html.py", "README"] env0 (mkConv g0 w0) o1.fs = .ok o2 ∧
      o2.fs = o1.fs ∧ o2.printed = o1.printed ∧ o2.res = o1.res :=
  c8_idempotent ["pandoc-html.py", "README"] env0 g0 w0 fs0 "README" "/src" "/bld"
    rfl rfl rfl (by decide)

/-- Claim C9: invoked with no positional argument, the script dies with an
unhandled `IndexError` at the argument read: the result is independent of
the environment and of the converter (so neither environment variable is
read and no subprocess is spawned), and the file system is unchanged. -/
theorem c9_no_argument (argv : List String) (h : argv.length ≤ 1) :
    ∀ (env : String → Option String) (conv : Converter) (fs : FS),
      runScript argv env conv fs = .err .indexError fs := by
  intro env conv fs
  have h1 : argv[1]? = none := List.getElem?_eq_none h
  unfold runScript
  rw [h1]

/-- Witness for C9 at an argument vector holding only the script name. -/
theorem c9_no_argument_witness :
    runScript ["pandoc-html.py"] env0 conv0 fs0 = .err .indexError fs0 :=
  c9_no_argument ["pandoc-html.py"] (by decide) env0 conv0 fs0

/-- Claim C10: the run is a deterministic function of the first positional
argument, the two environment variables, the converter and the file
system: two invocations that agree on `argv[1]`, on `MESON_SOURCE_ROOT`
and on `MESON_BUILD_ROOT` — in particular ones differing only in
command-line arguments beyond the first — produce identical results. -/
theorem c10_noninterference (argv1 argv2 : List String)
    (env1 env2 : String → Option String) (conv : Converter) (fs : FS)
    (h1 : argv1[1]? = argv2[1]?)
    (h2 : env1 "MESON_SOURCE_ROOT" = env2 "MESON_SOURCE_ROOT")
    (h3 : env1 "MESON_BUILD_ROOT" = env2 "MESON_BUILD_ROOT") :
    runScript argv1 env1 conv fs = runScript argv2 env2 conv fs := by
  unfold runScript
  rw [h1, h2, h3]

/-- Witness for C10: an extra trailing argument changes nothing. -/
theorem c10_noninterference_witness :
    runScript ["pandoc-html.py", "README", "extra-arg"] env0 conv0 fs0 =
      runScript ["other-name", "README"] env0 conv0 fs0 :=
  c10_noninterference ["pandoc-html.py", "README", "extra-arg"]
    ["other-name", "README"] env0 env0 conv0 fs0 rfl rfl rfl

end PandocHtml
